import Mathlib

/-!
Shallow embedding of the `meinside/telegram-d2-bot` repository (current
revision: the second revision of `bot.go`, `config.go`, and the current
`main.go` found under `src/unnamed/part_001`).

External collaborators (the Telegram transport, the d2 compile/layout/
export/render library stages, Playwright, the Infisical secret store, the
filesystem and HTTP) are modelled as environment records that fix the
outcome of each delegated call; the bot's own control flow is translated
function-by-function from the Go source.  Outbound transport calls and
local log lines are recorded as an event trace, so that properties about
"what is sent" become properties of the trace.
-/

namespace D2Bot

/-- Image bytes, as produced by the external render pipeline. -/
abbrev Bytes := List Nat

/-- Telegram user (`tg.User`): the fields the bot reads. `Username` is a
nullable pointer in Go, hence an `Option`. -/
structure User where
  username : Option String
  firstName : String
deriving DecidableEq

/-- Telegram chat (`tg.Chat`): only the `ID` field is read. -/
structure Chat where
  ID : Int
deriving DecidableEq

/-- Telegram document attachment (`tg.Document`): the fields the bot
reads. `FileName` is a nullable pointer in Go. -/
structure Document where
  fileName : Option String
  fileID : String
deriving DecidableEq

/-- Telegram message (`tg.Message`): the fields the bot reads. -/
structure Message where
  fromUser : User
  chat : Chat
  messageID : Int
  text : Option String
  document : Option Document
deriving DecidableEq

/-- Mirrors `tg.Message.HasText`. -/
def Message.hasText (m : Message) : Bool := m.text.isSome

/-- Mirrors `tg.Message.HasDocument`. -/
def Message.hasDocument (m : Message) : Bool := m.document.isSome

/-- Telegram update (`tg.Update`): modelled by its (optional) usable
message, which is what `GetMessage`/`GetFrom` read. -/
structure Update where
  message : Option Message
deriving DecidableEq

/-- Mirrors `tg.Update.GetMessage` (second component of the Go pair is
only an edited-flag and is ignored by every caller in this repository). -/
def Update.getMessage (u : Update) : Option Message := u.message

/-- Mirrors `tg.Update.GetFrom`: the sender of the update's message. -/
def Update.getFrom (u : Update) : Option User :=
  u.message.map (·.fromUser)

/-- Infisical secret-store descriptor from `config.go`. -/
structure InfisicalConfig where
  clientID : String
  clientSecret : String
  projectID : String
  environment : String
  secretType : String
  botTokenKeyPath : String
deriving DecidableEq

/-- Configuration struct from `config.go` (`type config struct`). -/
structure config where
  allowedIDs : List String
  monitorInterval : Int
  themeID : Int
  sketch : Bool
  isVerbose : Bool
  botToken : String
  infisical : Option InfisicalConfig
deriving DecidableEq

/-- Constant `defaultPollingInterval` from `bot.go`. -/
def defaultPollingInterval : Int := 5

/-- Constant `commandStart` from `bot.go`. -/
def commandStart : String := "/start"

/-- Constant `commandHelp` from `bot.go`. -/
def commandHelp : String := "/help"

/-- Constant `commandPrivacy` from `bot.go`. -/
def commandPrivacy : String := "/privacy"

/-- Constant `messageHelp` from `bot.go` (a raw Go string ending in a
newline). -/
def messageHelp : String :=
  "This is a [Telegram Bot](https://github\\.com/meinside/telegram\\-d2\\-bot) which replies to your messages with [D2](https://github\\.com/terrastruct/d2)\\-generated \\.svg files in \\.png format\\.\n"

/-- Constant `messagePrivacy` from `bot.go`. -/
def messagePrivacy : String :=
  "[Privacy Policy](https://github\\.com/meinside/telegram\\-d2\\-bot/raw/master/PRIVACY\\.md)"

/-- Constant `messageNotSupported` from `bot.go`. -/
def messageNotSupported : String :=
  "This type of message is not supported (yet)."

/-- Constant `messageNoMatchingCommand` from `bot.go`, instantiated by
`fmt.Sprintf` on the command string. -/
def messageNoMatchingCommand (cmd : String) : String :=
  "Not a supported command: " ++ cmd

/-- Outcomes of the delegated external calls made by `renderDiagram`.

Each field fixes the result of one external stage: `d2compiler.Compile`,
`textmeasure.NewRuler`, `graph.SetDimensions`, `d2dagrelayout.Layout`,
`d2exporter.Export`, `d2svg.Render`, `png.InitPlaywright`,
`png.ConvertSVG`, and `pw.Cleanup` (for which `none` means a nil error). -/
structure RenderEnv where
  compileRes : Except String Unit
  rulerRes : Except String Unit
  dimsRes : Except String Unit
  layoutRes : Except String Unit
  exportRes : Except String Unit
  svgRes : Except String Bytes
  pwInitRes : Except String Unit
  convertRes : Except String Bytes
  cleanupRes : Option String

/-- Observable events of one dispatch: outbound transport calls
(`chatAction`, `sendDocument`, `sendMessage`, `setReaction`), the call
into the render pipeline (`renderAttempt`, carrying the diagram source),
the Playwright engine lifecycle (`pwAcquire`/`pwRelease`), local log
lines, and the two `main`-level effects (usage printing, bot startup). -/
inductive Event where
  | chatAction : Int → Event
  | renderAttempt : String → Event
  | pwAcquire : Event
  | pwRelease : Event
  | sendDocument : Int → Int → Bytes → Event
  | sendMessage : Int → Option Int → String → Event
  | setReaction : Int → Int → String → Event
  | logLine : String → Event
  | printUsage : String → Event
  | runBotStart : String → Event
deriving DecidableEq

/-- Mirrors `renderDiagram` from `bot.go`: the nested success-path
branching, returning the `(bs, err)` pair of named return values together
with the Playwright acquire/release trace.

The Go `defer` around `pw.Cleanup()` is modelled exactly: once
`png.InitPlaywright` succeeds, cleanup runs on both remaining exit paths;
its error `e` replaces a nil `err` (so a successful conversion followed by
a failing cleanup yields `(bs, cleanup error)` — the named return `bs`
keeps the converted bytes), while on a `ConvertSVG` failure the cleanup
error is dropped because `err` is already non-nil. -/
def renderDiagram (conf : config) (env : RenderEnv) :
    Option Bytes × Option String × List Event :=
  match env.compileRes with
  | .error e => (none, some e, [])
  | .ok _ =>
    match env.rulerRes with
    | .error e => (none, some e, [])
    | .ok _ =>
      match env.dimsRes with
      | .error e => (none, some e, [])
      | .ok _ =>
        match env.layoutRes with
        | .error e => (none, some e, [])
        | .ok _ =>
          match env.exportRes with
          | .error e => (none, some e, [])
          | .ok _ =>
            match env.svgRes with
            | .error e => (none, some e, [])
            | .ok _ =>
              match env.pwInitRes with
              | .error e => (none, some e, [])
              | .ok _ =>
                match env.convertRes with
                | .error e => (none, some e, [Event.pwAcquire, Event.pwRelease])
                | .ok b =>
                  match env.cleanupRes with
                  | none => (some b, none, [Event.pwAcquire, Event.pwRelease])
                  | some ce => (some b, some ce, [Event.pwAcquire, Event.pwRelease])

/-- First failing stage of the six-stage render pipeline proper
(compile, ruler, dimensions, layout, export, SVG render, Playwright
init, rasterize), in the order `renderDiagram` runs them; `none` when
every stage up to and including `ConvertSVG` succeeds.  A cleanup
failure is deliberately not a pipeline-stage failure. -/
def firstFailure (env : RenderEnv) : Option String :=
  match env.compileRes with
  | .error e => some e
  | .ok _ =>
    match env.rulerRes with
    | .error e => some e
    | .ok _ =>
      match env.dimsRes with
      | .error e => some e
      | .ok _ =>
        match env.layoutRes with
        | .error e => some e
        | .ok _ =>
          match env.exportRes with
          | .error e => some e
          | .ok _ =>
            match env.svgRes with
            | .error e => some e
            | .ok _ =>
              match env.pwInitRes with
              | .error e => some e
              | .ok _ =>
                match env.convertRes with
                | .error e => some e
                | .ok _ => none

/-- Whether the run of `renderDiagram` reaches and succeeds at
`png.InitPlaywright`, i.e. the external engine is actually acquired. -/
def pwAcquired (env : RenderEnv) : Bool :=
  match env.compileRes, env.rulerRes, env.dimsRes, env.layoutRes,
      env.exportRes, env.svgRes, env.pwInitRes with
  | .ok _, .ok _, .ok _, .ok _, .ok _, .ok _, .ok _ => true
  | _, _, _, _, _, _, _ => false

/-- Mirrors Go `strings.HasSuffix`, at the character level (the suffix
tested in this repository, `.d2`, is ASCII, so byte-level and
character-level suffix agree). -/
def hasSuffix (s sfx : String) : Bool :=
  sfx.data.isSuffixOf s.data

/-- Mirrors `isUsernameAllowed` from `bot.go`: a nil username is never
allowed; otherwise membership in `conf.AllowedIDs` (exact string match). -/
def isUsernameAllowed (conf : config) (username : Option String) : Bool :=
  match username with
  | none => false
  | some u => conf.allowedIDs.contains u

/-- Mirrors `isUpdateAllowed` from `bot.go`. -/
def isUpdateAllowed (conf : config) (update : Update) : Bool :=
  match update.getFrom with
  | some f => isUsernameAllowed conf f.username
  | none => false

/-- Mirrors `replyError` from `bot.go`: one `SendMessage` call replying to
`messageID`.  A failed send only logs, which no claim observes, so the
send status is not part of the environment here. -/
def replyError (chatID messageID : Int) (text : String) : List Event :=
  [Event.sendMessage chatID (some messageID) text]

/-- Mirrors `replyRendered` from `bot.go`: send a typing chat action, call
`renderDiagram`, and branch on its `err` result exactly as the Go
`if bs, err := renderDiagram(...); err == nil` does.  On a nil error the
(bytes of the) named return are sent as a document and, when that send
reports OK (`sendDocOK`), an emoji reaction is set; on a non-nil error the
error is logged and an error-text reply is sent.  `sendDocOK` stands for
the transport's `sent.OK` status of the `SendDocument` call. -/
def replyRendered (env : RenderEnv) (sendDocOK : Bool) (conf : config)
    (chatID messageID : Int) (text : String) : List Event :=
  let r := renderDiagram conf env
  [Event.chatAction chatID, Event.renderAttempt text] ++ r.2.2 ++
    match r.2.1 with
    | none =>
      Event.sendDocument chatID messageID (r.1.getD []) ::
        (if sendDocOK then [Event.setReaction chatID messageID "👌"] else [])
    | some e =>
      [Event.logLine ("failed to render message: " ++ e),
       Event.sendMessage chatID (some messageID)
         ("Failed to render message: " ++ e)]

/-- Mirrors `handleMessage` from `bot.go`.  The Go code dereferences
`*message.Text`, which its caller guards with `message.HasText()`; the
dereference is modelled by `Option.getD`. -/
def handleMessage (env : RenderEnv) (sendDocOK : Bool) (conf : config)
    (message : Message) : List Event :=
  if isUsernameAllowed conf message.fromUser.username then
    replyRendered env sendDocOK conf message.chat.ID message.messageID
      (message.text.getD "")
  else
    if conf.isVerbose then [Event.logLine "message not allowed"] else []

/-- Outcomes of the external calls made by `handleDocument`:
`bot.GetFile`'s OK status and the result of `getBytesFromURL` (the
fetched file content, decoded to a string as the Go code does). -/
structure DocEnv where
  getFileOK : Bool
  fetchRes : Except String String

/-- Mirrors `handleDocument` from `bot.go`.  The Go guard is
`document.FileName != nil && strings.HasSuffix(*document.FileName, ".d2")`
with an else branch that replies only when `FileName != nil`; the same
three-way split is written here as a match on the optional filename.  The
`*message.Document` dereference is guarded by the caller's
`message.HasDocument()` and modelled by `Option.getD`. -/
def handleDocument (env : RenderEnv) (denv : DocEnv) (sendDocOK : Bool)
    (conf : config) (message : Message) : List Event :=
  if isUsernameAllowed conf message.fromUser.username then
    let document := message.document.getD { fileName := none, fileID := "" }
    match document.fileName with
    | some name =>
      if hasSuffix name ".d2" then
        if denv.getFileOK then
          match denv.fetchRes with
          | .ok content =>
            replyRendered env sendDocOK conf message.chat.ID message.messageID
              content
          | .error e => [Event.logLine ("failed to fetch url: " ++ e)]
        else
          [Event.logLine ("failed to fetch file with id: " ++ document.fileID)]
      else
        replyError message.chat.ID message.messageID
          ("'" ++ name ++ "' does not seem to be a .d2 file.")
    | none => []
  else
    if conf.isVerbose then [Event.logLine "document not allowed"] else []

/-- Mirrors `handleNoSupport` from `bot.go`. -/
def handleNoSupport (conf : config) (update : Update) : List Event :=
  if isUpdateAllowed conf update then
    match update.getMessage with
    | some message =>
      replyError message.chat.ID message.messageID messageNotSupported
    | none => [Event.logLine "no usable message"]
  else
    if conf.isVerbose then [Event.logLine "update not allowed"] else []

/-- Mirrors `handleHelpCommand` from `bot.go`: gated by `isUpdateAllowed`,
it sends the fixed help text to the update's chat (no reply threading). -/
def handleHelpCommand (conf : config) (update : Update) : List Event :=
  if isUpdateAllowed conf update then
    match update.getMessage with
    | some message => [Event.sendMessage message.chat.ID none messageHelp]
    | none => []
  else
    if conf.isVerbose then [Event.logLine "update not allowed"] else []

/-- Mirrors `handlePrivacyCommand` from `bot.go`: no allowance check at
all; sends the fixed privacy-policy text whenever the update carries a
message. -/
def handlePrivacyCommand (update : Update) : List Event :=
  match update.getMessage with
  | some message => [Event.sendMessage message.chat.ID none messagePrivacy]
  | none => []

/-- Mirrors `handleNoMatchingCommand` from `bot.go`. -/
def handleNoMatchingCommand (conf : config) (update : Update)
    (cmd : String) : List Event :=
  if isUpdateAllowed conf update then
    match update.getMessage with
    | some message =>
      [Event.sendMessage message.chat.ID none (messageNoMatchingCommand cmd)]
    | none => []
  else
    if conf.isVerbose then [Event.logLine "update not allowed"] else []

/-- Inbound work items as the `runBot` wiring in `bot.go` distinguishes
them: a message update delivered to the `SetMessageHandler` callback, a
recognized-or-not command delivered to the command router, and any other
update reaching the polling callback (`handleNoSupport`). -/
inductive Inbound where
  | message : Message → Inbound
  | command : String → Update → Inbound
  | plain : Update → Inbound

/-- Per-update dispatch, mirroring the handler wiring inside `runBot` in
`bot.go`: the message handler renders text or document messages; the
command router maps `/start` and `/help` to `handleHelpCommand`,
`/privacy` to `handlePrivacyCommand`, and everything else to
`handleNoMatchingCommand`; other updates go to `handleNoSupport`. -/
def dispatch (env : RenderEnv) (denv : DocEnv) (sendDocOK : Bool)
    (conf : config) : Inbound → List Event
  | .message m =>
    if m.hasText then handleMessage env sendDocOK conf m
    else if m.hasDocument then handleDocument env denv sendDocOK conf m
    else []
  | .command cmd u =>
    if cmd = commandStart then handleHelpCommand conf u
    else if cmd = commandHelp then handleHelpCommand conf u
    else if cmd = commandPrivacy then handlePrivacyCommand u
    else handleNoMatchingCommand conf u cmd
  | .plain u => handleNoSupport conf u

/-- Sender handle of an inbound item, as the corresponding handler reads
it (`message.From.Username` or `update.GetFrom().Username`). -/
def inboundSender : Inbound → Option String
  | .message m => m.fromUser.username
  | .command _ u => (Update.getFrom u).bind (·.username)
  | .plain u => (Update.getFrom u).bind (·.username)

/-- Classifies outbound transport calls (anything the sender could
observe): chat actions, documents, messages, reactions.  Render-pipeline
internals, local log lines and `main`-level effects are not outbound. -/
def isOutbound : Event → Bool
  | .chatAction _ => true
  | .sendDocument _ _ _ => true
  | .sendMessage _ _ _ => true
  | .setReaction _ _ _ => true
  | _ => false

/-- Recognizes a render attempt (a call into `renderDiagram`). -/
def isRenderAttempt : Event → Bool
  | .renderAttempt _ => true
  | _ => false

/-- Recognizes a document reply (`SendDocument`). -/
def isDocReply : Event → Bool
  | .sendDocument _ _ _ => true
  | _ => false

/-- Recognizes an error-text reply: a `SendMessage` threaded as a reply to
the original message, which is how both `replyError` and the failure
branch of `replyRendered` send text. -/
def isErrorReply : Event → Bool
  | .sendMessage _ (some _) _ => true
  | _ => false

/-- Outcomes of the Infisical secret-store calls made by `loadConfig`:
`UniversalAuthLogin` and `Secrets().Retrieve` (whose success carries the
retrieved `SecretValue`). -/
structure InfisicalEnv where
  authRes : Except String Unit
  retrieveRes : Except String String

/-- Token-resolution step of `loadConfig` in `config.go` (the body run
after a successful read/standardize/unmarshal): only when the inline
`bot_token` is empty and an `infisical` descriptor is present does it
authenticate and retrieve the token, wrapping store errors; in every
other case the parsed config is returned unchanged with a nil error. -/
def resolveToken (ienv : InfisicalEnv) (conf : config) :
    Except String config :=
  if conf.botToken = "" then
    match conf.infisical with
    | some _ =>
      match ienv.authRes with
      | .error e =>
        .error ("failed to authenticate with Infisical: " ++ e)
      | .ok _ =>
        match ienv.retrieveRes with
        | .error e =>
          .error ("failed to retrieve telegram bot token from Infisical: " ++ e)
        | .ok secret => .ok { conf with botToken := secret }
    | none => .ok conf
  else .ok conf

/-- Mirrors `loadConfig` from `config.go`: `readRes` bundles the outcomes
of `os.ReadFile`, `standardizeJSON` and `json.Unmarshal` (external
filesystem and parser calls), after which the token-resolution step
runs. -/
def loadConfig (readRes : Except String config) (ienv : InfisicalEnv) :
    Except String config :=
  match readRes with
  | .error e => .error e
  | .ok conf => resolveToken ienv conf

/-- Interval resolution from `runBot` in `bot.go`: a non-positive
`monitor_interval` falls back to `defaultPollingInterval`. -/
def resolveInterval (conf : config) : Int :=
  if conf.monitorInterval ≤ 0 then defaultPollingInterval
  else conf.monitorInterval

/-- How far `runBot` in `bot.go` gets with a given `loadConfig` result:
a load error panics; otherwise `tg.NewClient(conf.BotToken)` is reached
with whatever token the config carries (there is no token check). -/
inductive StartupOutcome where
  | panicked : String → StartupOutcome
  | clientCreated : String → StartupOutcome
deriving DecidableEq

/-- Startup decision of `runBot` from `bot.go` (lines up to the client
construction). -/
def runBotStartup (loadRes : Except String config) : StartupOutcome :=
  match loadRes with
  | .error e => .panicked e
  | .ok conf => .clientCreated conf.botToken

/-- Mirrors `main` from the current `main.go` (src/unnamed/part_001):
first `playwright.Install()` runs (`installRes` is its error, `none` for
success); on failure it logs and returns.  Otherwise with more than one
element in `os.Args` it starts the bot on `os.Args[1]`, else it prints the
usage text with `os.Args[0]`.  Every path returns normally from `main`,
so the exit status (second component) is always `0`. -/
def mainProg (installRes : Option String) (args : List String) :
    List Event × Nat :=
  match installRes with
  | some e =>
    ([Event.logLine ("failed to install playwright browsers: " ++ e)], 0)
  | none =>
    if args.length > 1 then ([Event.runBotStart (args.getD 1 "")], 0)
    else ([Event.printUsage (args.getD 0 "")], 0)

/-- Concrete configuration fixture: `alice` is the only allowed handle,
verbose logging off, inline token present. -/
def confAlice : config :=
  { allowedIDs := ["alice"], monitorInterval := 5, themeID := 0,
    sketch := false, isVerbose := false, botToken := "token",
    infisical := none }

/-- Concrete render environment in which every external stage succeeds. -/
def envAllOk : RenderEnv :=
  { compileRes := .ok (), rulerRes := .ok (), dimsRes := .ok (),
    layoutRes := .ok (), exportRes := .ok (), svgRes := .ok [9],
    pwInitRes := .ok (), convertRes := .ok [255, 216], cleanupRes := none }

/-- Concrete render environment in which `d2compiler.Compile` fails with
message `boom` (and every later stage would succeed). -/
def envCompileBoom : RenderEnv :=
  { compileRes := .error "boom", rulerRes := .ok (), dimsRes := .ok (),
    layoutRes := .ok (), exportRes := .ok (), svgRes := .ok [9],
    pwInitRes := .ok (), convertRes := .ok [255, 216], cleanupRes := none }

/-- Concrete render environment in which every pipeline stage succeeds
but the Playwright cleanup reports an error. -/
def envCleanupFail : RenderEnv :=
  { compileRes := .ok (), rulerRes := .ok (), dimsRes := .ok (),
    layoutRes := .ok (), exportRes := .ok (), svgRes := .ok [9],
    pwInitRes := .ok (), convertRes := .ok [255, 216],
    cleanupRes := some "cleanup failed" }

/-- Concrete document-handling environment in which the file fetch
succeeds. -/
def denvOK : DocEnv :=
  { getFileOK := true, fetchRes := .ok "a -> b" }

/-- Concrete Infisical environment in which both store calls succeed. -/
def ienvDummy : InfisicalEnv :=
  { authRes := .ok (), retrieveRes := .ok "secret-token" }

/-- Concrete config with empty inline token and no Infisical block. -/
def confNoToken : config :=
  { allowedIDs := ["alice"], monitorInterval := 5, themeID := 0,
    sketch := false, isVerbose := false, botToken := "", infisical := none }

/-- Concrete config for the spec's interval scenario:
`allowed_ids = [alice]`, `monitor_interval = 0`, inline token. -/
def scenarioConf : config :=
  { allowedIDs := ["alice"], monitorInterval := 0, themeID := 0,
    sketch := false, isVerbose := false, botToken := "inline-token",
    infisical := none }

/-- Concrete message from the unauthorized sender `mallory`. -/
def msgMallory : Message :=
  { fromUser := { username := some "mallory", firstName := "Mallory" },
    chat := { ID := 7 }, messageID := 3, text := some "hi",
    document := none }

/-- Concrete update from the unauthorized sender `mallory`. -/
def updMallory : Update :=
  { message := some msgMallory }

/-- Concrete text message from the authorized sender `alice`. -/
def msgAliceText : Message :=
  { fromUser := { username := some "alice", firstName := "Alice" },
    chat := { ID := 7 }, messageID := 3, text := some "x -> y",
    document := none }

/-- Concrete document message from `alice` whose attachment carries no
filename. -/
def msgAliceNoFileName : Message :=
  { fromUser := { username := some "alice", firstName := "Alice" },
    chat := { ID := 7 }, messageID := 4, text := none,
    document := some { fileName := none, fileID := "file0" } }

/-- Concrete document message from `alice` whose attachment is named
`notes.txt` (not a .d2 file). -/
def msgAliceTxtFile : Message :=
  { fromUser := { username := some "alice", firstName := "Alice" },
    chat := { ID := 7 }, messageID := 5, text := none,
    document := some { fileName := some "notes.txt", fileID := "file1" } }

/-- Concrete command message from `alice`. -/
def msgAliceCmd : Message :=
  { fromUser := { username := some "alice", firstName := "Alice" },
    chat := { ID := 7 }, messageID := 6, text := some "/help",
    document := none }

/-- Concrete update from `alice` carrying a command message. -/
def updAlice : Update :=
  { message := some msgAliceCmd }

/-- Helper: when the pipeline proper has a first failing stage, the
diagram result is nil, the error is that stage's message verbatim, and
the Playwright trace is determined by whether the engine was acquired. -/
lemma renderDiagram_fail (conf : config) (env : RenderEnv) (e : String)
    (h : firstFailure env = some e) :
    renderDiagram conf env =
      (none, some e,
        if pwAcquired env then [Event.pwAcquire, Event.pwRelease] else []) := by
  rcases env with ⟨c, r, d, l, ex, s, p, cv, cl⟩
  cases c <;> cases r <;> cases d <;> cases l <;> cases ex <;> cases s <;>
    cases p <;> cases cv <;> cases cl <;>
      simp_all [renderDiagram, firstFailure, pwAcquired]

/-- Helper: when every pipeline stage succeeds, the result carries the
converted bytes, the error equals the cleanup outcome (the deferred
`pw.Cleanup` replaces a nil `err`), and the engine was acquired and
released. -/
lemma renderDiagram_ok (conf : config) (env : RenderEnv) (b : Bytes)
    (hff : firstFailure env = none) (hcv : env.convertRes = Except.ok b) :
    renderDiagram conf env =
      (some b, env.cleanupRes, [Event.pwAcquire, Event.pwRelease]) := by
  rcases env with ⟨c, r, d, l, ex, s, p, cv, cl⟩
  cases c <;> cases r <;> cases d <;> cases l <;> cases ex <;> cases s <;>
    cases p <;> cases cv <;> cases cl <;>
      simp_all [renderDiagram, firstFailure]

/-- Helper: the Playwright trace of any run is `[acquire, release]` when
the engine is acquired and empty otherwise. -/
lemma renderDiagram_trace (conf : config) (env : RenderEnv) :
    (renderDiagram conf env).2.2 =
      if pwAcquired env then [Event.pwAcquire, Event.pwRelease] else [] := by
  rcases env with ⟨c, r, d, l, ex, s, p, cv, cl⟩
  cases c <;> cases r <;> cases d <;> cases l <;> cases ex <;> cases s <;>
    cases p <;> cases cv <;> cases cl <;>
      simp_all [renderDiagram, pwAcquired]

/-- Helper: `isUpdateAllowed` is the username check on the update's
sender handle. -/
lemma isUpdateAllowed_eq_sender (conf : config) (u : Update) :
    isUpdateAllowed conf u =
      isUsernameAllowed conf ((Update.getFrom u).bind (·.username)) := by
  rcases u with ⟨m⟩
  cases m <;> simp [isUpdateAllowed, Update.getFrom, isUsernameAllowed]

/-- C2 counterexample: a config with an empty inline token and no
secret-store descriptor loads successfully (nil error, token left empty)
and `runBot` proceeds past the load to construct the client with the
empty token — startup does not fail at that point, refuting the claim
that such inputs fail process startup. -/
theorem claimC2_counterexample :
    loadConfig (Except.ok confNoToken) ienvDummy = Except.ok confNoToken
    ∧ confNoToken.botToken = ""
    ∧ runBotStartup (loadConfig (Except.ok confNoToken) ienvDummy)
        = StartupOutcome.clientCreated "" :=
  ⟨rfl, rfl, rfl⟩

/-- C2 (amended): configuration loading performs no token validation —
for every parsed config whose inline token is empty and which carries no
secret-store descriptor, loading succeeds with the empty token and
`runBot` proceeds to construct the bot client with that empty token
rather than failing. -/
theorem claimC2_amended (conf : config) (ienv : InfisicalEnv)
    (htok : conf.botToken = "") (hinf : conf.infisical = none) :
    loadConfig (Except.ok conf) ienv = Except.ok conf
    ∧ runBotStartup (loadConfig (Except.ok conf) ienv)
        = StartupOutcome.clientCreated "" := by
  have hres : resolveToken ienv conf = Except.ok conf := by
    simp [resolveToken, htok, hinf]
  constructor
  · simpa [loadConfig] using hres
  · simp [loadConfig, hres, runBotStartup, htok]

/-- C2 witness: the amended theorem applied to the concrete tokenless
config. -/
theorem claimC2_amended_witness :
    loadConfig (Except.ok confNoToken) ienvDummy = Except.ok confNoToken
    ∧ runBotStartup (loadConfig (Except.ok confNoToken) ienvDummy)
        = StartupOutcome.clientCreated "" :=
  claimC2_amended confNoToken ienvDummy rfl rfl

/-- C7: on every call to `renderDiagram`, the Playwright engine trace is
exactly `[acquire, release]` when the engine is successfully acquired and
empty otherwise — so once acquired it is released exactly once on every
exit path (success, stage failure, and cleanup-failure alike), and it is
never released without having been acquired. -/
theorem claimC7_pw_released (conf : config) (env : RenderEnv) :
    (renderDiagram conf env).2.2 =
      (if pwAcquired env then [Event.pwAcquire, Event.pwRelease] else [])
    ∧ ((renderDiagram conf env).2.2).count Event.pwRelease =
      ((renderDiagram conf env).2.2).count Event.pwAcquire := by
  have h := renderDiagram_trace conf env
  refine ⟨h, ?_⟩
  rw [h]
  cases hp : pwAcquired env <;> simp

/-- C8: every config whose `monitor_interval` is ≤ 0 resolves to the
default polling interval 5; in particular the scenario config
(`allowed_ids = [alice]`, `monitor_interval = 0`, inline token) resolves
to interval 5 with the inline token unchanged by loading. -/
theorem claimC8_interval (conf : config) (h : conf.monitorInterval ≤ 0) :
    resolveInterval conf = 5
    ∧ resolveInterval scenarioConf = 5
    ∧ loadConfig (Except.ok scenarioConf) ienvDummy = Except.ok scenarioConf
    ∧ scenarioConf.botToken = "inline-token" := by
  refine ⟨?_, ?_, rfl, rfl⟩
  · simp [resolveInterval, h, defaultPollingInterval]
  · rfl

/-- C8 witness: the theorem applied to the scenario config itself. -/
theorem claimC8_interval_witness :
    resolveInterval scenarioConf = 5
    ∧ resolveInterval scenarioConf = 5
    ∧ loadConfig (Except.ok scenarioConf) ienvDummy = Except.ok scenarioConf
    ∧ scenarioConf.botToken = "inline-token" :=
  claimC8_interval scenarioConf (by decide)

/-- C9 counterexample: invoked with no command-line argument but with the
Playwright browser installation failing, `main` logs the install error
and returns without printing the usage text — refuting the claim that a
no-argument invocation always prints usage. -/
theorem claimC9_counterexample :
    (mainProg (some "no network") ["telegram-d2-bot"]).1
      = [Event.logLine "failed to install playwright browsers: no network"]
    ∧ Event.printUsage "telegram-d2-bot"
        ∉ (mainProg (some "no network") ["telegram-d2-bot"]).1 := by
  constructor
  · rfl
  · intro hmem
    rw [show (mainProg (some "no network") ["telegram-d2-bot"]).1
        = [Event.logLine "failed to install playwright browsers: no network"]
      from rfl] at hmem
    simp at hmem

/-- C9 (amended): when invoked with no command-line argument and the
Playwright browser installation succeeds, the program prints the usage
text to standard output and exits with status 0 without starting the bot;
when the installation fails it logs the error and exits with status 0
without printing usage and without starting the bot. -/
theorem claimC9_amended (progName : String) :
    mainProg none [progName] = ([Event.printUsage progName], 0)
    ∧ (∀ e, mainProg (some e) [progName]
        = ([Event.logLine ("failed to install playwright browsers: " ++ e)], 0)) := by
  constructor
  · simp [mainProg]
  · intro e
    rfl

/-- C4 counterexample: when `d2compiler.Compile` fails with message
`boom`, `renderDiagram` surfaces exactly `boom` — there is no non-empty
prefix naming the failing stage prepended to it, refuting the claim that
the surfaced error is prefixed with which stage failed. -/
theorem claimC4_counterexample :
    (renderDiagram confAlice envCompileBoom).2.1 = some "boom"
    ∧ ¬ ∃ pfx : String, pfx ≠ ""
        ∧ (renderDiagram confAlice envCompileBoom).2.1 = some (pfx ++ "boom") := by
  refine ⟨rfl, ?_⟩
  rintro ⟨pfx, hne, heq⟩
  have hs : some ("boom" : String) = some (pfx ++ "boom") := by
    rw [show (renderDiagram confAlice envCompileBoom).2.1 = some "boom" from rfl]
      at heq
    exact heq
  have hb : pfx ++ "boom" = "boom" := (Option.some.injEq _ _ ▸ hs).symm
  have hd := congrArg String.data hb
  rw [String.data_append] at hd
  have hnil : pfx.data = [] := List.append_left_eq_self.mp hd
  exact hne (String.ext (by simpa using hnil))

/-- C4 (amended): for every render pipeline failure, at whichever stage
(compile, measure, layout, export, SVG render, engine init, rasterize),
the pipeline short-circuits at the first failing stage and surfaces that
stage's error message unmodified, with no stage prefix added; the user
receives an error-text reply consisting of the fixed text
`Failed to render message: ` followed by that failure description; and no
image bytes are returned (the byte result is nil) nor sent (no document
reply occurs). -/
theorem claimC4_amended (conf : config) (env : RenderEnv)
    (sendDocOK : Bool) (chatID messageID : Int) (text : String)
    (e : String) (h : firstFailure env = some e) :
    (renderDiagram conf env).1 = none
    ∧ (renderDiagram conf env).2.1 = some e
    ∧ (replyRendered env sendDocOK conf chatID messageID text).countP
        isDocReply = 0
    ∧ Event.sendMessage chatID (some messageID)
        ("Failed to render message: " ++ e)
        ∈ replyRendered env sendDocOK conf chatID messageID text := by
  have hrd := renderDiagram_fail conf env e h
  refine ⟨by rw [hrd], by rw [hrd], ?_, ?_⟩
  · simp only [replyRendered, hrd]
    cases hp : pwAcquired env <;>
      simp [List.countP_append, List.countP_cons, isDocReply]
  · simp only [replyRendered, hrd]
    cases hp : pwAcquired env <;> simp

/-- C4 witness: the amended theorem applied at the concrete environment
whose compile stage fails with `boom`. -/
theorem claimC4_amended_witness :
    (renderDiagram confAlice envCompileBoom).1 = none
    ∧ (renderDiagram confAlice envCompileBoom).2.1 = some "boom"
    ∧ (replyRendered envCompileBoom true confAlice 7 3 "x -> y").countP
        isDocReply = 0
    ∧ Event.sendMessage 7 (some 3) ("Failed to render message: " ++ "boom")
        ∈ replyRendered envCompileBoom true confAlice 7 3 "x -> y" :=
  claimC4_amended confAlice envCompileBoom true 7 3 "x -> y" "boom" rfl

/-- C10: when every rendering stage succeeds but the deferred Playwright
cleanup fails, `renderDiagram` returns the successfully converted bytes
together with a non-nil error (the cleanup error), and the caller
`replyRendered` therefore discards the image — no document reply is sent
and the user receives the error-text reply instead. -/
theorem claimC10_cleanup_error (conf : config) (env : RenderEnv)
    (sendDocOK : Bool) (chatID messageID : Int) (text : String)
    (b : Bytes) (ce : String)
    (hff : firstFailure env = none)
    (hcv : env.convertRes = Except.ok b)
    (hcl : env.cleanupRes = some ce) :
    renderDiagram conf env
      = (some b, some ce, [Event.pwAcquire, Event.pwRelease])
    ∧ (replyRendered env sendDocOK conf chatID messageID text).countP
        isDocReply = 0
    ∧ Event.sendMessage chatID (some messageID)
        ("Failed to render message: " ++ ce)
        ∈ replyRendered env sendDocOK conf chatID messageID text := by
  have hrd := renderDiagram_ok conf env b hff hcv
  rw [hcl] at hrd
  refine ⟨hrd, ?_, ?_⟩
  · simp [replyRendered, hrd, List.countP_append, List.countP_cons, isDocReply]
  · simp [replyRendered, hrd]

/-- C10 witness: the theorem applied at the concrete all-stages-succeed,
cleanup-fails environment. -/
theorem claimC10_cleanup_error_witness :
    renderDiagram confAlice envCleanupFail
      = (some [255, 216], some "cleanup failed",
         [Event.pwAcquire, Event.pwRelease])
    ∧ (replyRendered envCleanupFail true confAlice 7 3 "x -> y").countP
        isDocReply = 0
    ∧ Event.sendMessage 7 (some 3)
        ("Failed to render message: " ++ "cleanup failed")
        ∈ replyRendered envCleanupFail true confAlice 7 3 "x -> y" :=
  claimC10_cleanup_error confAlice envCleanupFail true 7 3 "x -> y"
    [255, 216] "cleanup failed" rfl rfl rfl

/-- C1 counterexample: the `/privacy` command is dispatched without any
allowance check, so an update from the unauthorized sender `mallory`
still receives the privacy-policy text — refuting the claim that
unauthorized senders never receive an outbound reply for any update
variant (the command variant replies). -/
theorem claimC1_counterexample :
    isUsernameAllowed confAlice
      (inboundSender (Inbound.command commandPrivacy updMallory)) = false
    ∧ (dispatch envAllOk denvOK true confAlice
        (Inbound.command commandPrivacy updMallory)).filter isOutbound
      = [Event.sendMessage 7 none messagePrivacy] := by
  constructor
  · decide
  · decide

/-- C1 (amended): for every inbound update whose sender handle is absent
or not in the authorized set, and which is not the `/privacy` command
(which is answered unconditionally), no outbound reply of any kind —
text, document, chat action or reaction — is sent for any update variant,
and when verbose logging is disabled nothing at all (not even a log
line) is produced. -/
theorem claimC1_amended (env : RenderEnv) (denv : DocEnv) (sendDocOK : Bool)
    (conf : config) (inb : Inbound)
    (hdeny : isUsernameAllowed conf (inboundSender inb) = false)
    (hpriv : ∀ u, inb ≠ Inbound.command commandPrivacy u) :
    (dispatch env denv sendDocOK conf inb).filter isOutbound = []
    ∧ (conf.isVerbose = false → dispatch env denv sendDocOK conf inb = []) := by
  cases inb with
  | message m =>
    simp only [inboundSender] at hdeny
    have hmsg : handleMessage env sendDocOK conf m
        = if conf.isVerbose then [Event.logLine "message not allowed"]
          else [] := by
      simp [handleMessage, hdeny]
    have hdoc : handleDocument env denv sendDocOK conf m
        = if conf.isVerbose then [Event.logLine "document not allowed"]
          else [] := by
      simp [handleDocument, hdeny]
    constructor
    · cases ht : m.hasText <;> cases hd : m.hasDocument <;>
        cases hv : conf.isVerbose <;>
          simp [dispatch, ht, hd, hv, hmsg, hdoc, isOutbound]
    · intro hv
      cases ht : m.hasText <;> cases hd : m.hasDocument <;>
        simp [dispatch, ht, hd, hv, hmsg, hdoc]
  | command cmd u =>
    simp only [inboundSender] at hdeny
    have hu : isUpdateAllowed conf u = false := by
      rw [isUpdateAllowed_eq_sender]
      exact hdeny
    have hcmd : dispatch env denv sendDocOK conf (Inbound.command cmd u)
        = if conf.isVerbose then [Event.logLine "update not allowed"]
          else [] := by
      by_cases h1 : cmd = commandStart
      · simp [dispatch, h1, handleHelpCommand, hu]
      · by_cases h2 : cmd = commandHelp
        · simp [dispatch, h1, h2, handleHelpCommand, hu]
        · by_cases h3 : cmd = commandPrivacy
          · exact absurd (by rw [h3]) (hpriv u)
          · simp [dispatch, h1, h2, h3, handleNoMatchingCommand, hu]
    rw [hcmd]
    constructor
    · cases hv : conf.isVerbose <;> simp [isOutbound]
    · intro hv
      simp [hv]
  | plain u =>
    simp only [inboundSender] at hdeny
    have hu : isUpdateAllowed conf u = false := by
      rw [isUpdateAllowed_eq_sender]
      exact hdeny
    have hns : dispatch env denv sendDocOK conf (Inbound.plain u)
        = if conf.isVerbose then [Event.logLine "update not allowed"]
          else [] := by
      simp [dispatch, handleNoSupport, hu]
    rw [hns]
    constructor
    · cases hv : conf.isVerbose <;> simp [isOutbound]
    · intro hv
      simp [hv]

/-- C1 witness: the amended theorem applied to a text message from the
unauthorized sender `mallory` under a non-verbose config. -/
theorem claimC1_amended_witness :
    (dispatch envAllOk denvOK true confAlice
        (Inbound.message msgMallory)).filter isOutbound = []
    ∧ (confAlice.isVerbose = false →
        dispatch envAllOk denvOK true confAlice (Inbound.message msgMallory)
          = []) :=
  claimC1_amended envAllOk denvOK true confAlice (Inbound.message msgMallory)
    (by decide) (fun u h => Inbound.noConfusion h)

/-- C3: for every text update from an authorized sender, exactly one
render attempt (carrying the message text as diagram source) occurs, and
exactly one of the two reply kinds follows — a document reply when the
render error is nil, an error-text reply when it is non-nil — never both
and never neither. -/
theorem claimC3_one_render_one_reply (env : RenderEnv) (sendDocOK : Bool)
    (conf : config) (m : Message) (txt : String)
    (hallow : isUsernameAllowed conf m.fromUser.username = true)
    (htext : m.text = some txt) :
    Event.renderAttempt txt ∈ handleMessage env sendDocOK conf m
    ∧ (handleMessage env sendDocOK conf m).countP isRenderAttempt = 1
    ∧ (handleMessage env sendDocOK conf m).countP
        (fun e => isDocReply e || isErrorReply e) = 1
    ∧ ((renderDiagram conf env).2.1 = none →
        (handleMessage env sendDocOK conf m).countP isDocReply = 1
        ∧ (handleMessage env sendDocOK conf m).countP isErrorReply = 0)
    ∧ (∀ er, (renderDiagram conf env).2.1 = some er →
        (handleMessage env sendDocOK conf m).countP isDocReply = 0
        ∧ (handleMessage env sendDocOK conf m).countP isErrorReply = 1) := by
  have hmsg : handleMessage env sendDocOK conf m
      = replyRendered env sendDocOK conf m.chat.ID m.messageID txt := by
    simp [handleMessage, hallow, htext]
  rw [hmsg]
  simp only [replyRendered]
  rw [renderDiagram_trace conf env]
  rcases herr : (renderDiagram conf env).2.1 with _ | er <;>
    cases hp : pwAcquired env <;> cases sendDocOK <;>
      simp [herr, List.countP_append, List.countP_cons, isRenderAttempt,
        isDocReply, isErrorReply]

/-- C3 witness: the theorem applied to the concrete authorized text
message under the all-stages-succeed environment. -/
theorem claimC3_one_render_one_reply_witness :
    Event.renderAttempt "x -> y"
        ∈ handleMessage envAllOk true confAlice msgAliceText
    ∧ (handleMessage envAllOk true confAlice msgAliceText).countP
        isRenderAttempt = 1
    ∧ (handleMessage envAllOk true confAlice msgAliceText).countP
        (fun e => isDocReply e || isErrorReply e) = 1
    ∧ ((renderDiagram confAlice envAllOk).2.1 = none →
        (handleMessage envAllOk true confAlice msgAliceText).countP
          isDocReply = 1
        ∧ (handleMessage envAllOk true confAlice msgAliceText).countP
            isErrorReply = 0)
    ∧ (∀ er, (renderDiagram confAlice envAllOk).2.1 = some er →
        (handleMessage envAllOk true confAlice msgAliceText).countP
          isDocReply = 0
        ∧ (handleMessage envAllOk true confAlice msgAliceText).countP
            isErrorReply = 1) :=
  claimC3_one_render_one_reply envAllOk true confAlice msgAliceText "x -> y"
    (by decide) rfl

/-- C5 counterexample: a document update from the authorized sender
`alice` whose attachment carries no filename produces no reply at all
(the nil-filename case falls through silently), refuting the claim that
an absent filename yields a rejection reply naming the filename. -/
theorem claimC5_counterexample :
    isUsernameAllowed confAlice msgAliceNoFileName.fromUser.username = true
    ∧ handleDocument envAllOk denvOK true confAlice msgAliceNoFileName
      = [] := by
  constructor
  · decide
  · decide

/-- C5 (amended): for every document update from an authorized sender,
if the attachment has a present filename that does not end in `.d2` the
bot replies with the rejection message naming that exact filename and
never invokes the renderer; if the filename is absent the bot sends no
reply at all and likewise never invokes the renderer. -/
theorem claimC5_amended (env : RenderEnv) (denv : DocEnv) (sendDocOK : Bool)
    (conf : config) (m : Message) (doc : Document)
    (hallow : isUsernameAllowed conf m.fromUser.username = true)
    (hdoc : m.document = some doc) :
    (∀ name, doc.fileName = some name → hasSuffix name ".d2" = false →
        handleDocument env denv sendDocOK conf m
          = [Event.sendMessage m.chat.ID (some m.messageID)
              ("'" ++ name ++ "' does not seem to be a .d2 file.")]
        ∧ (handleDocument env denv sendDocOK conf m).countP
            isRenderAttempt = 0)
    ∧ (doc.fileName = none →
        handleDocument env denv sendDocOK conf m = []
        ∧ (handleDocument env denv sendDocOK conf m).countP
            isRenderAttempt = 0) := by
  constructor
  · intro name hn hx
    have heq : handleDocument env denv sendDocOK conf m
        = [Event.sendMessage m.chat.ID (some m.messageID)
            ("'" ++ name ++ "' does not seem to be a .d2 file.")] := by
      simp [handleDocument, hallow, hdoc, hn, hx, replyError]
    refine ⟨heq, ?_⟩
    rw [heq]
    simp [isRenderAttempt]
  · intro hn
    have heq : handleDocument env denv sendDocOK conf m = [] := by
      simp [handleDocument, hallow, hdoc, hn]
    exact ⟨heq, by rw [heq]; rfl⟩

/-- C5 witness: the amended theorem applied to the concrete `notes.txt`
document from `alice`. -/
theorem claimC5_amended_witness :
    handleDocument envAllOk denvOK true confAlice msgAliceTxtFile
      = [Event.sendMessage msgAliceTxtFile.chat.ID
          (some msgAliceTxtFile.messageID)
          ("'" ++ "notes.txt" ++ "' does not seem to be a .d2 file.")]
    ∧ (handleDocument envAllOk denvOK true confAlice msgAliceTxtFile).countP
        isRenderAttempt = 0 :=
  (claimC5_amended envAllOk denvOK true confAlice msgAliceTxtFile
      { fileName := some "notes.txt", fileID := "file1" }
      (by decide) rfl).1 "notes.txt" rfl (by decide)

/-- C6: `/start` and `/help` both route to the help handler, which sends
the fixed help text exactly when the sender is authorized and sends no
outbound message when not, while `/privacy` routes to a handler with no
allowance check that always sends the fixed policy text. -/
theorem claimC6_commands (env : RenderEnv) (denv : DocEnv) (sendDocOK : Bool)
    (conf : config) (u : Update) (m : Message)
    (hm : Update.getMessage u = some m) :
    dispatch env denv sendDocOK conf (Inbound.command commandStart u)
      = handleHelpCommand conf u
    ∧ dispatch env denv sendDocOK conf (Inbound.command commandHelp u)
      = handleHelpCommand conf u
    ∧ dispatch env denv sendDocOK conf (Inbound.command commandPrivacy u)
      = handlePrivacyCommand u
    ∧ (isUpdateAllowed conf u = true →
        handleHelpCommand conf u
          = [Event.sendMessage m.chat.ID none messageHelp])
    ∧ (isUpdateAllowed conf u = false →
        (handleHelpCommand conf u).filter isOutbound = [])
    ∧ handlePrivacyCommand u
      = [Event.sendMessage m.chat.ID none messagePrivacy] := by
  have h1 : commandHelp ≠ commandStart := by decide
  have h2 : commandPrivacy ≠ commandStart := by decide
  have h3 : commandPrivacy ≠ commandHelp := by decide
  refine ⟨by simp [dispatch], by simp [dispatch, h1],
    by simp [dispatch, h2, h3], ?_, ?_, ?_⟩
  · intro h
    simp [handleHelpCommand, h, hm]
  · intro h
    simp only [handleHelpCommand, h]
    cases hv : conf.isVerbose <;> simp [isOutbound]
  · simp [handlePrivacyCommand, hm]

/-- C6 witness: the theorem applied to the concrete command update from
the authorized sender `alice`. -/
theorem claimC6_commands_witness :
    dispatch envAllOk denvOK true confAlice
        (Inbound.command commandStart updAlice)
      = handleHelpCommand confAlice updAlice
    ∧ dispatch envAllOk denvOK true confAlice
        (Inbound.command commandHelp updAlice)
      = handleHelpCommand confAlice updAlice
    ∧ dispatch envAllOk denvOK true confAlice
        (Inbound.command commandPrivacy updAlice)
      = handlePrivacyCommand updAlice
    ∧ (isUpdateAllowed confAlice updAlice = true →
        handleHelpCommand confAlice updAlice
          = [Event.sendMessage msgAliceCmd.chat.ID none messageHelp])
    ∧ (isUpdateAllowed confAlice updAlice = false →
        (handleHelpCommand confAlice updAlice).filter isOutbound = [])
    ∧ handlePrivacyCommand updAlice
      = [Event.sendMessage msgAliceCmd.chat.ID none messagePrivacy] :=
  claimC6_commands envAllOk denvOK true confAlice updAlice msgAliceCmd rfl

/-- C7 witness: the release discipline evaluated at the concrete
all-stages-succeed environment. -/
theorem claimC7_pw_released_witness :
    (renderDiagram confAlice envAllOk).2.2 =
      (if pwAcquired envAllOk then [Event.pwAcquire, Event.pwRelease] else [])
    ∧ ((renderDiagram confAlice envAllOk).2.2).count Event.pwRelease =
      ((renderDiagram confAlice envAllOk).2.2).count Event.pwAcquire :=
  claimC7_pw_released confAlice envAllOk

/-- C9 witness: the amended behaviour evaluated at the concrete program
name. -/
theorem claimC9_amended_witness :
    mainProg none ["telegram-d2-bot"]
      = ([Event.printUsage "telegram-d2-bot"], 0)
    ∧ (∀ e, mainProg (some e) ["telegram-d2-bot"]
        = ([Event.logLine ("failed to install playwright browsers: " ++ e)],
           0)) :=
  claimC9_amended "telegram-d2-bot"

end D2Bot
